import Mathlib

/-!
# sensitives: the Go wrapper `c_search.go` around the native matching library

A shallow embedding of `src/c_search.go`.  The wrapper is glue around two
native functions declared in `c_search.h` (`createDFA_Node_And_Init` and
`checkSensitiveWords`); they are not part of the Go source and are taken as
parameters (`Native`).  Everything proved below holds for every choice of the
two native functions.

Conventions
* a Go `string` / `[]byte` is a `List Byte`;
* a C pointer is a natural number, `0` being `NULL` / Go `nil`;
* a `C.int` cell is an `Int` (no arithmetic is done on cells, so width is
  irrelevant); `uint16` arguments are naturals (every theorem holds for all
  naturals, in particular for `0..65535`);
* a Go `error` is an `Option String` (`none` is `nil`);
* a Go run-time panic is an explicit `Outcome.panic`.
-/

namespace Sensitives

/-! ## Data model -/

/-- One byte of a Go string. -/
abbrev Byte := Fin 256

/-- A C pointer (`*C.DFA_Node`); `0` is the null pointer. -/
abbrev Ptr := Nat

/-- Go `error` values: `none` is `nil`, `some msg` is `fmt.Errorf(msg)`. -/
abbrev GoError := Option String

/-- Run-time panics the wrapper can raise. -/
inductive Panic where
  | indexOutOfRange (index length : Nat)
  deriving DecidableEq, Repr

/-- Result of running a Go function: it returns a value or panics. -/
inductive Outcome (α : Type) where
  | ret (a : α)
  | panic (p : Panic)
  deriving DecidableEq, Repr

/-- A C array of `n` cells of type `C.int` (the Go slice `[]C.int` of length `n`
whose backing store is handed to C). -/
abbrev CIntArray (n : Nat) := { l : List Int // l.length = n }

/-- Go `make([]C.int, n)`: `n` zeroed cells (line 90). -/
def CIntArray.make (n : Nat) : CIntArray n :=
  ⟨List.replicate n 0, List.length_replicate n 0⟩

/-- The loop `for i := range a { a[i] = v }` (lines 91-93). -/
def CIntArray.fill {n : Nat} (a : CIntArray n) (v : Int) : CIntArray n :=
  ⟨a.val.map (fun _ => v), by rw [List.length_map]; exact a.property⟩

/-- State of a `sync.RWMutex`: whether a writer holds it and how many readers do. -/
structure RWMutex where
  writer : Bool
  readers : Nat
  deriving DecidableEq, Repr

/-- The zero value of `sync.RWMutex` (unlocked). -/
def RWMutex.zero : RWMutex := ⟨false, 0⟩

/-- The mutex is free: `TryLock` would succeed. -/
def RWMutex.free (m : RWMutex) : Bool := !m.writer && m.readers == 0

/-- Go `(*RWMutex).TryLock`: acquires the write lock iff nobody holds the mutex. -/
def RWMutex.TryLock (m : RWMutex) : Bool × RWMutex :=
  if m.free then (true, { m with writer := true }) else (false, m)

/-- Go `(*RWMutex).Unlock`: releases the write lock. -/
def RWMutex.Unlock (m : RWMutex) : RWMutex := { m with writer := false }

/-- The Go struct `CSearch` (lines 17-23). -/
structure CSearch where
  dfaNode : Ptr
  rwMutex : RWMutex
  deriving DecidableEq, Repr

/-- The engine together with the part of the C heap the wrapper acts on: the
automaton pointers it has passed to `C.free` (line 77). -/
structure World where
  s : CSearch
  freed : List Ptr
  deriving DecidableEq, Repr

/-- C `free`: freeing the null pointer does nothing. -/
def cfree (p : Ptr) (freed : List Ptr) : List Ptr :=
  if p = 0 then freed else p :: freed

/-- The two native functions of `c_search.h`, which the Go file only calls.
`createDFA_Node_And_Init words n` returns the new automaton (or `0`);
`checkSensitiveWords dfa text buf max` returns the result buffer as the native
scan leaves it. -/
structure Native where
  createDFA_Node_And_Init : List (List Byte) → Nat → Ptr
  checkSensitiveWords : Ptr → List Byte → {n : Nat} → CIntArray n → Nat → CIntArray n

/-- The error message of lines 39 and 67. -/
def buildFailedMsg : String :=
  "tree index build failed, please check and change MAX_NODE_NUM in c_search.h"

/-! ## The wrapper functions -/

/-- Go `MakeCSearch` (lines 26-46).  `&cStrings[0]` (line 37) panics on an empty
slice; a null automaton gives `(nil, error)`; otherwise a fresh engine. -/
def MakeCSearch (N : Native) (allSensitiveWords : List (List Byte)) :
    Outcome (Option CSearch × GoError) :=
  let cStrings := allSensitiveWords
  match cStrings with
  | [] => .panic (.indexOutOfRange 0 0)
  | _ :: _ =>
    let dfaNodePtr := N.createDFA_Node_And_Init cStrings allSensitiveWords.length
    if dfaNodePtr = 0 then
      .ret (none, some buildFailedMsg)
    else
      .ret (some { dfaNode := dfaNodePtr, rwMutex := RWMutex.zero }, none)

/-- Lines 57-78 of `UpdateCSearch`: the part that runs with the lock held,
before the deferred `Unlock`. -/
def UpdateCSearch.locked (N : Native) (w : World) (allSensitiveWords : List (List Byte)) :
    Outcome GoError × World :=
  let cStrings := allSensitiveWords
  match cStrings with
  | [] => (.panic (.indexOutOfRange 0 0), w)
  | _ :: _ =>
    let dfaNodePtr := N.createDFA_Node_And_Init cStrings allSensitiveWords.length
    if dfaNodePtr = 0 then
      (.ret (some buildFailedMsg), w)
    else
      let oldDFANodePtr := w.s.dfaNode
      let s1 : CSearch := { w.s with dfaNode := dfaNodePtr }
      (.ret none, { s := s1, freed := cfree oldDFANodePtr w.freed })

/-- The deferred `s.rwMutex.Unlock()` of line 52. -/
def World.unlock (w : World) : World :=
  { w with s := { w.s with rwMutex := w.s.rwMutex.Unlock } }

/-- Go `(*CSearch).UpdateCSearch` (lines 49-79). -/
def UpdateCSearch (N : Native) (w : World) (allSensitiveWords : List (List Byte)) :
    Outcome GoError × World :=
  match w.s.rwMutex.TryLock with
  | (true, m) =>
    let r := UpdateCSearch.locked N { w with s := { w.s with rwMutex := m } } allSensitiveWords
    (r.1, r.2.unlock)
  | (false, _) => (.ret none, w)

/-- The loop of lines 99-104: append every cell different from `-1`. -/
def CheckSensitive.collect (searchResult : List Int) : List Int :=
  searchResult.foldl
    (fun goSearchResult index => if index != -1 then goSearchResult ++ [index] else goSearchResult)
    []

/-- Lines 85-105 of `CheckSensitive`, run on the pointer loaded at line 83.
`&searchResult[0]` (line 96) panics when `maxSearchCount = 0`; otherwise the
native scan is run on `dfaNode` and the cells different from `-1` are
collected in order. -/
def CheckSensitive.scan (N : Native) (dfaNode : Ptr) (text : List Byte)
    (maxSearchCount : Nat) : Outcome (List Int) :=
  let searchString := text
  let searchResult := (CIntArray.make maxSearchCount).fill (-1)
  if maxSearchCount = 0 then
    .panic (.indexOutOfRange 0 0)
  else
    let searchResult := N.checkSensitiveWords dfaNode searchString searchResult maxSearchCount
    .ret (CheckSensitive.collect searchResult.val)

/-- Go `(*CSearch).CheckSensitive` (lines 82-106): load `s.dfaNode` (line 83),
then scan with it.  The receiver is only read. -/
def CheckSensitive (N : Native) (w : World) (text : List Byte) (maxSearchCount : Nat) :
    Outcome (List Int) × World :=
  let dfaNode := w.s.dfaNode
  (CheckSensitive.scan N dfaNode text maxSearchCount, w)

/-- The index pairs Go `(*CSearch).DebugPrintSearchResult` (lines 109-116)
reads and prints: for each `i = 0, 2, 4, ...` below `len(searchResult)` the pair
`(searchResult[i], searchResult[i+1] + 1)`; `searchResult[i+1]` panics when the
list has odd length.  The slice expression `text[start:end]` of line 113 is
not modelled. -/
def DebugPrintSearchResult.pairs : (searchResult : List Int) → (i : Nat) →
    Outcome (List (Int × Int))
  | [], _ => .ret []
  | [_], i => .panic (.indexOutOfRange (i + 1) (i + 1))
  | start_index :: e :: rest, i =>
    let end_index := e + 1
    match DebugPrintSearchResult.pairs rest (i + 2) with
    | .ret lines => .ret ((start_index, end_index) :: lines)
    | .panic p => .panic p

/-! ## Interleaving model

Each call is cut into atomic steps at the statements that touch the engine or
the C heap; a schedule is a list of thread indices. -/

/-- Progress of one `CheckSensitive` call. -/
inductive SearchPC where
  /-- Before line 83. -/
  | start
  /-- After `dfaNode := s.dfaNode` (line 83), native scan not yet finished. -/
  | loaded (dfaNode : Ptr)
  /-- The call has returned (or panicked). -/
  | finished (r : Outcome (List Int))
  deriving DecidableEq, Repr

/-- Progress of one `UpdateCSearch` call. -/
inductive UpdatePC where
  /-- Before `TryLock` (line 51). -/
  | start
  /-- The lock is held; the native build (line 65) has not run. -/
  | locked
  /-- The native build returned the non-null `dfaNodePtr`. -/
  | built (dfaNodePtr : Ptr)
  /-- Lines 71 and 74 done: the old pointer is saved, the new one installed. -/
  | swapped (oldDFANodePtr : Ptr)
  /-- The return value is fixed; the deferred `Unlock` has not run. -/
  | returning (r : Outcome GoError)
  /-- The call has returned (or panicked). -/
  | finished (r : Outcome GoError)
  deriving DecidableEq, Repr

/-- A running call of one of the two methods, with its arguments. -/
inductive Thread where
  | search (text : List Byte) (maxSearchCount : Nat) (pc : SearchPC)
  | update (allSensitiveWords : List (List Byte)) (pc : UpdatePC)
  deriving DecidableEq, Repr

/-- One atomic step of a thread. -/
def Thread.step (N : Native) (w : World) : Thread → World × Thread
  | .search text m .start => (w, .search text m (.loaded w.s.dfaNode))
  | .search text m (.loaded dfaNode) =>
    (w, .search text m (.finished (CheckSensitive.scan N dfaNode text m)))
  | .search text m (.finished r) => (w, .search text m (.finished r))
  | .update words .start =>
    match w.s.rwMutex.TryLock with
    | (true, m) => ({ w with s := { w.s with rwMutex := m } }, .update words .locked)
    | (false, _) => (w, .update words (.finished (.ret none)))
  | .update words .locked =>
    match words with
    | [] => (w, .update words (.returning (.panic (.indexOutOfRange 0 0))))
    | _ :: _ =>
      let dfaNodePtr := N.createDFA_Node_And_Init words words.length
      if dfaNodePtr = 0 then
        (w, .update words (.returning (.ret (some buildFailedMsg))))
      else
        (w, .update words (.built dfaNodePtr))
  | .update words (.built dfaNodePtr) =>
    ({ w with s := { w.s with dfaNode := dfaNodePtr } }, .update words (.swapped w.s.dfaNode))
  | .update words (.swapped oldDFANodePtr) =>
    ({ w with freed := cfree oldDFANodePtr w.freed }, .update words (.returning (.ret none)))
  | .update words (.returning r) => (w.unlock, .update words (.finished r))
  | .update words (.finished r) => (w, .update words (.finished r))

/-- A thread running alone for `k` steps. -/
def Thread.runAlone (N : Native) : Nat → World × Thread → World × Thread
  | 0, c => c
  | k + 1, c => Thread.runAlone N k (c.2.step N c.1)

/-- The engine, the heap and the calls in flight. -/
structure Sys where
  w : World
  threads : List Thread
  deriving DecidableEq, Repr

/-- Thread `i` takes one step. -/
def Sys.stepAt (N : Native) (sys : Sys) (i : Nat) : Sys :=
  match sys.threads[i]? with
  | none => sys
  | some t =>
    let r := t.step N sys.w
    { w := r.1, threads := sys.threads.set i r.2 }

/-- Run a schedule. -/
def Sys.run (N : Native) (sys : Sys) : List Nat → Sys
  | [] => sys
  | i :: rest => Sys.run N (sys.stepAt N i) rest

/-- The automaton a search has loaded and may still be walking. -/
def Thread.holds : Thread → Option Ptr
  | .search _ _ (.loaded dfaNode) => some dfaNode
  | _ => none

/-- Some search in flight holds an automaton that has been passed to `C.free`. -/
def Sys.useAfterFree (sys : Sys) : Bool :=
  sys.threads.any fun t =>
    match t.holds with
    | some p => sys.w.freed.contains p
    | none => false

/-! ## Native libraries used to instantiate the theorems -/

/-- A native library whose build always succeeds (automaton `n + 1` for `n`
words) and whose scan reports `(0, 0)` in the first two cells it is given. -/
def Native.sample : Native where
  createDFA_Node_And_Init := fun _ n => n + 1
  checkSensitiveWords := fun _ _ {n} buf _ =>
    ⟨(List.replicate 2 (0 : Int) ++ buf.val.drop 2).take n, by
      have := buf.property
      simp only [List.length_take, List.length_append, List.length_replicate, List.length_drop]
      omega⟩

/-- A native library whose build always fails (returns `NULL`). -/
def Native.failing : Native where
  createDFA_Node_And_Init := fun _ _ => 0
  checkSensitiveWords := fun _ _ {_} buf _ => buf

/-- The text `"aaaaa"`. -/
def aaaaa : List Byte := [97, 97, 97, 97, 97]

/-- An engine holding automaton `1`, lock free, nothing freed. -/
def World.idle : World := { s := { dfaNode := 1, rwMutex := RWMutex.zero }, freed := [] }

/-- An engine holding automaton `1` while a rebuild holds the lock. -/
def World.busy : World := { s := { dfaNode := 1, rwMutex := ⟨true, 0⟩ }, freed := [] }

/-! ## Basic lemmas -/

theorem CIntArray.fill_make_val (n : Nat) (v : Int) :
    ((CIntArray.make n).fill v).val = List.replicate n v := by
  simp [CIntArray.make, CIntArray.fill]

theorem RWMutex.TryLock_of_free (m : RWMutex) (h : m.free = true) :
    m.TryLock = (true, { m with writer := true }) := by
  simp [RWMutex.TryLock, h]

theorem RWMutex.TryLock_of_writer (m : RWMutex) (h : m.writer = true) :
    m.TryLock = (false, m) := by
  simp [RWMutex.TryLock, RWMutex.free, h]

theorem RWMutex.unlock_lock_of_free (m : RWMutex) (h : m.free = true) :
    ({ m with writer := true } : RWMutex).Unlock = m := by
  cases m with
  | mk wr rd =>
    simp only [RWMutex.free, Bool.and_eq_true, Bool.not_eq_true', beq_iff_eq] at h
    simp [RWMutex.Unlock, h.1]

theorem RWMutex.free_unlock_lock_of_free (m : RWMutex) (h : m.free = true) :
    (({ m with writer := true } : RWMutex).Unlock).free = true := by
  rw [RWMutex.unlock_lock_of_free m h]; exact h

theorem collect_aux (l acc : List Int) :
    l.foldl (fun goSearchResult index =>
        if index != -1 then goSearchResult ++ [index] else goSearchResult) acc
      = acc ++ l.filter (fun index => index != -1) := by
  induction l generalizing acc with
  | nil => simp
  | cons x xs ih =>
    rw [List.foldl_cons, ih]
    by_cases hx : x = -1
    · simp [hx]
    · simp [hx]

theorem collect_eq_filter (l : List Int) :
    CheckSensitive.collect l = l.filter (fun index => index != -1) := by
  unfold CheckSensitive.collect
  rw [collect_aux]
  simp

theorem scan_of_pos (N : Native) (dfaNode : Ptr) (text : List Byte) (m : Nat) (hm : 1 ≤ m) :
    CheckSensitive.scan N dfaNode text m =
      .ret (CheckSensitive.collect
        (N.checkSensitiveWords dfaNode text ((CIntArray.make m).fill (-1)) m).val) := by
  have h0 : m ≠ 0 := by omega
  simp [CheckSensitive.scan, h0]

theorem pairs_length : ∀ (r : List Int) (i : Nat) (lines : List (Int × Int)),
    DebugPrintSearchResult.pairs r i = .ret lines → 2 * lines.length = r.length
  | [], _, lines, h => by
    simp only [DebugPrintSearchResult.pairs, Outcome.ret.injEq] at h
    subst h
    rfl
  | [_], _, _, h => by
    simp [DebugPrintSearchResult.pairs] at h
  | a :: b :: rest, i, lines, h => by
    simp only [DebugPrintSearchResult.pairs] at h
    cases hrec : DebugPrintSearchResult.pairs rest (i + 2) with
    | ret ls =>
      rw [hrec] at h
      simp only [Outcome.ret.injEq] at h
      subst h
      have ih := pairs_length rest (i + 2) ls hrec
      simp only [List.length_cons]
      omega
    | panic q =>
      rw [hrec] at h
      simp at h

theorem RWMutex.free_of_TryLock (m : RWMutex) (h : m.TryLock.1 = true) : m.free = true := by
  by_cases hf : m.free = true
  · exact hf
  · simp [RWMutex.TryLock, hf] at h

theorem UpdateCSearch.locked_rwMutex (N : Native) (w : World) (words : List (List Byte)) :
    (UpdateCSearch.locked N w words).2.s.rwMutex = w.s.rwMutex := by
  unfold UpdateCSearch.locked
  cases words with
  | nil => rfl
  | cons x xs =>
    by_cases hp : N.createDFA_Node_And_Init (x :: xs) (xs.length + 1) = 0
    · simp [hp]
    · simp [hp]

theorem UpdateCSearch_of_free (N : Native) (w : World) (words : List (List Byte))
    (h : w.s.rwMutex.free = true) :
    UpdateCSearch N w words =
      ((UpdateCSearch.locked N
          { w with s := { w.s with rwMutex := { w.s.rwMutex with writer := true } } } words).1,
       (UpdateCSearch.locked N
          { w with s := { w.s with rwMutex := { w.s.rwMutex with writer := true } } }
          words).2.unlock) := by
  simp [UpdateCSearch, RWMutex.TryLock_of_free _ h]

theorem UpdateCSearch_rwMutex_of_free (N : Native) (w : World) (words : List (List Byte))
    (h : w.s.rwMutex.free = true) :
    (UpdateCSearch N w words).2.s.rwMutex = w.s.rwMutex := by
  rw [UpdateCSearch_of_free N w words h]
  simp only [World.unlock, UpdateCSearch.locked_rwMutex]
  exact RWMutex.unlock_lock_of_free _ h

/-! ## The interleaving model refines the sequential functions -/

/-- A `CheckSensitive` thread running alone takes two steps and ends with the
result and the world of the sequential function. -/
theorem search_thread_alone (N : Native) (w : World) (text : List Byte) (m : Nat) :
    Thread.runAlone N 2 (w, .search text m .start) =
      ((CheckSensitive N w text m).2, .search text m (.finished (CheckSensitive N w text m).1)) := by
  rfl

/-- An `UpdateCSearch` thread running alone for five steps ends with the result
and the world of the sequential function. -/
theorem update_thread_alone (N : Native) (w : World) (words : List (List Byte)) :
    Thread.runAlone N 5 (w, .update words .start) =
      ((UpdateCSearch N w words).2, .update words (.finished (UpdateCSearch N w words).1)) := by
  by_cases hf : w.s.rwMutex.free = true
  · cases words with
    | nil =>
      simp [Thread.runAlone, Thread.step, UpdateCSearch, UpdateCSearch.locked,
        RWMutex.TryLock_of_free _ hf]
    | cons x xs =>
      by_cases hp : N.createDFA_Node_And_Init (x :: xs) (xs.length + 1) = 0
      · simp [Thread.runAlone, Thread.step, UpdateCSearch, UpdateCSearch.locked,
          RWMutex.TryLock_of_free _ hf, hp]
      · simp [Thread.runAlone, Thread.step, UpdateCSearch, UpdateCSearch.locked,
          RWMutex.TryLock_of_free _ hf, hp, World.unlock]
  · simp [Thread.runAlone, Thread.step, UpdateCSearch, RWMutex.TryLock, hf]

/-! ## Claims -/

/-- Claim C1, counterexample: with a rebuild holding the lock (engine
`World.busy`) and the word list `["a"]`, `UpdateCSearch` returns `nil`, not an
error value: the claim that it returns a non-nil error fails. -/
theorem UpdateCSearch_busy_returns_nil_example :
    (UpdateCSearch Native.sample World.busy [[97]]).1 = Outcome.ret none ∧
    ¬ ∃ msg, (UpdateCSearch Native.sample World.busy [[97]]).1 = Outcome.ret (some msg) := by
  have h : (UpdateCSearch Native.sample World.busy [[97]]).1 = Outcome.ret none := rfl
  refine ⟨h, ?_⟩
  rintro ⟨msg, hmsg⟩
  rw [h] at hmsg
  simp at hmsg

/-- Claim C1, amended: for every engine state in which a rebuild holds the
rebuild lock and for every word list, `UpdateCSearch` returns `nil` (the same
value as on success) and leaves the engine (automaton reference and lock
state) and the freed set unchanged. -/
theorem UpdateCSearch_busy (N : Native) (w : World) (allSensitiveWords : List (List Byte))
    (h : w.s.rwMutex.writer = true) :
    UpdateCSearch N w allSensitiveWords = (Outcome.ret none, w) := by
  simp [UpdateCSearch, RWMutex.TryLock_of_writer _ h]

/-- Claim C1, amended, at the engine `World.busy` and the word list `["a"]`. -/
theorem UpdateCSearch_busy_witness :
    World.busy.s.rwMutex.writer = true ∧
    UpdateCSearch Native.sample World.busy [[97]] = (Outcome.ret none, World.busy) :=
  ⟨rfl, UpdateCSearch_busy Native.sample World.busy [[97]] rfl⟩

/-- Claim C2: with the rebuild lock free, a non-empty word list and a native
build that returns the null automaton, `UpdateCSearch` returns a non-nil error
and the automaton reference is the one before the call, not freed; the whole
engine state is as before. -/
theorem UpdateCSearch_build_failure (N : Native) (w : World)
    (allSensitiveWords : List (List Byte))
    (hfree : w.s.rwMutex.free = true) (hne : allSensitiveWords ≠ [])
    (hnull : N.createDFA_Node_And_Init allSensitiveWords allSensitiveWords.length = 0) :
    (UpdateCSearch N w allSensitiveWords).1 = Outcome.ret (some buildFailedMsg) ∧
    (UpdateCSearch N w allSensitiveWords).2.s.dfaNode = w.s.dfaNode ∧
    (UpdateCSearch N w allSensitiveWords).2.freed = w.freed ∧
    (UpdateCSearch N w allSensitiveWords).2 = w := by
  have key : UpdateCSearch N w allSensitiveWords = (Outcome.ret (some buildFailedMsg), w) := by
    cases allSensitiveWords with
    | nil => exact absurd rfl hne
    | cons x xs =>
      rw [UpdateCSearch_of_free N w _ hfree]
      simp only [UpdateCSearch.locked, hnull, if_true, World.unlock]
      rw [RWMutex.unlock_lock_of_free _ hfree]
  rw [key]
  exact ⟨rfl, rfl, rfl, rfl⟩

/-- Claim C2 at the engine `World.idle`, the word list `["a"]` and a native build
that returns `NULL`. -/
theorem UpdateCSearch_build_failure_witness :
    World.idle.s.rwMutex.free = true ∧ ([[97]] : List (List Byte)) ≠ [] ∧
    Native.failing.createDFA_Node_And_Init [[97]] 1 = 0 ∧
    (UpdateCSearch Native.failing World.idle [[97]]).1 = Outcome.ret (some buildFailedMsg) ∧
    (UpdateCSearch Native.failing World.idle [[97]]).2.s.dfaNode = 1 ∧
    (UpdateCSearch Native.failing World.idle [[97]]).2.freed = [] ∧
    (UpdateCSearch Native.failing World.idle [[97]]).2 = World.idle :=
  ⟨rfl, by simp, rfl,
    UpdateCSearch_build_failure Native.failing World.idle [[97]] rfl (by simp) rfl⟩

/-- Claim C3: with the rebuild lock free, a non-empty word list and a native
build that succeeds with automaton `p`, `UpdateCSearch` returns `nil`, the
engine's automaton reference afterwards is `p`, and every later
`CheckSensitive` call hands `p` to the native search (for a positive count;
with count `0` it panics before the native call). -/
theorem UpdateCSearch_build_success (N : Native) (w : World)
    (allSensitiveWords : List (List Byte)) (p : Ptr)
    (hfree : w.s.rwMutex.free = true) (hne : allSensitiveWords ≠ [])
    (hbuild : N.createDFA_Node_And_Init allSensitiveWords allSensitiveWords.length = p)
    (hp : p ≠ 0) :
    (UpdateCSearch N w allSensitiveWords).1 = Outcome.ret none ∧
    (UpdateCSearch N w allSensitiveWords).2.s.dfaNode = p ∧
    ∀ (text : List Byte) (maxSearchCount : Nat),
      (CheckSensitive N (UpdateCSearch N w allSensitiveWords).2 text maxSearchCount).1 =
        if maxSearchCount = 0 then Outcome.panic (Panic.indexOutOfRange 0 0)
        else Outcome.ret (CheckSensitive.collect
          (N.checkSensitiveWords p text ((CIntArray.make maxSearchCount).fill (-1))
            maxSearchCount).val) := by
  have key : UpdateCSearch N w allSensitiveWords =
      (Outcome.ret none,
       { s := { dfaNode := p, rwMutex := w.s.rwMutex }, freed := cfree w.s.dfaNode w.freed }) := by
    cases allSensitiveWords with
    | nil => exact absurd rfl hne
    | cons x xs =>
      subst hbuild
      rw [UpdateCSearch_of_free N w _ hfree]
      simp only [UpdateCSearch.locked, hp, if_false, World.unlock]
      rw [RWMutex.unlock_lock_of_free _ hfree]
  rw [key]
  refine ⟨rfl, rfl, ?_⟩
  intro text m
  rfl

/-- Claim C3 at the engine `World.idle`, the word list `["a"]` and a native build
that returns automaton `2`. -/
theorem UpdateCSearch_build_success_witness :
    World.idle.s.rwMutex.free = true ∧ ([[97]] : List (List Byte)) ≠ [] ∧
    Native.sample.createDFA_Node_And_Init [[97]] 1 = 2 ∧ (2 : Ptr) ≠ 0 ∧
    (UpdateCSearch Native.sample World.idle [[97]]).1 = Outcome.ret none ∧
    (UpdateCSearch Native.sample World.idle [[97]]).2.s.dfaNode = 2 ∧
    ∀ (text : List Byte) (maxSearchCount : Nat),
      (CheckSensitive Native.sample (UpdateCSearch Native.sample World.idle [[97]]).2
          text maxSearchCount).1 =
        if maxSearchCount = 0 then Outcome.panic (Panic.indexOutOfRange 0 0)
        else Outcome.ret (CheckSensitive.collect
          (Native.sample.checkSensitiveWords 2 text ((CIntArray.make maxSearchCount).fill (-1))
            maxSearchCount).val) :=
  ⟨rfl, by simp, rfl, by decide,
    UpdateCSearch_build_success Native.sample World.idle [[97]] 2 rfl (by simp) rfl (by decide)⟩

/-- Claim C4, the failing input: `CheckSensitive` with `maxSearchCount = 0`
does not return a result list; `&searchResult[0]` on the empty result buffer
raises an index-out-of-range panic, for every text and engine. -/
theorem CheckSensitive_zero_count_panics (N : Native) (w : World) (text : List Byte) :
    CheckSensitive N w text 0 = (Outcome.panic (Panic.indexOutOfRange 0 0), w) := by
  rfl

/-- Claim C5, the failing input: on the empty word list `MakeCSearch` panics
(`&cStrings[0]` on an empty slice) instead of returning an engine, and so does
`UpdateCSearch` when the lock is free (the deferred `Unlock` still runs). -/
theorem empty_word_list_panics (N : Native) (dfaNode : Ptr) (freed : List Ptr) :
    MakeCSearch N [] = Outcome.panic (Panic.indexOutOfRange 0 0) ∧
    UpdateCSearch N { s := { dfaNode := dfaNode, rwMutex := RWMutex.zero }, freed := freed } [] =
      (Outcome.panic (Panic.indexOutOfRange 0 0),
       { s := { dfaNode := dfaNode, rwMutex := RWMutex.zero }, freed := freed }) := by
  exact ⟨rfl, rfl⟩

/-- Claim C6, the failing input: for the text `"aaaaa"` and `maxSearchCount = 3`
the list returned by `CheckSensitive` has at most 3 entries whatever the native
scan writes, so it never holds 3 `(start, end)` pairs (6 entries), and
`DebugPrintSearchResult` reads at most one pair from it. -/
theorem CheckSensitive_aaaaa_three (N : Native) (w : World) :
    ∃ r, (CheckSensitive N w aaaaa 3).1 = Outcome.ret r ∧ r.length ≤ 3 ∧ r.length ≠ 2 * 3 ∧
      ∀ (i : Nat) (lines : List (Int × Int)),
        DebugPrintSearchResult.pairs r i = Outcome.ret lines → lines.length ≤ 1 := by
  refine ⟨_, rfl, ?_⟩
  have hlen : (CheckSensitive.collect
      (N.checkSensitiveWords w.s.dfaNode aaaaa ((CIntArray.make 3).fill (-1)) 3).val).length
        ≤ 3 := by
    rw [collect_eq_filter]
    refine le_trans (List.length_filter_le _ _) ?_
    exact le_of_eq (N.checkSensitiveWords w.s.dfaNode aaaaa ((CIntArray.make 3).fill (-1)) 3).property
  refine ⟨hlen, by omega, ?_⟩
  intro i lines hl
  have := pairs_length _ i lines hl
  omega

/-- Claim C7, the failing interleaving: a search loads automaton `1` (line 83),
then an update takes the lock, builds automaton `2`, installs it and frees
automaton `1` (line 77) while the search has not yet run its native scan: the
search holds a freed automaton. -/
theorem search_holds_freed_automaton :
    Sys.run Native.sample
        { w := World.idle,
          threads := [Thread.search aaaaa 20 SearchPC.start,
                      Thread.update [[97]] UpdatePC.start] }
        [0, 1, 1, 1, 1] =
      { w := { s := { dfaNode := 2, rwMutex := ⟨true, 0⟩ }, freed := [1] },
        threads := [Thread.search aaaaa 20 (SearchPC.loaded 1),
                    Thread.update [[97]] (UpdatePC.returning (Outcome.ret none))] } ∧
    (Sys.run Native.sample
        { w := World.idle,
          threads := [Thread.search aaaaa 20 SearchPC.start,
                      Thread.update [[97]] UpdatePC.start] }
        [0, 1, 1, 1, 1]).useAfterFree = true := by
  exact ⟨rfl, rfl⟩

/-- Claim C8: for every engine state, text and `maxSearchCount ≥ 1`,
`CheckSensitive` returns and the engine's automaton reference and rebuild-lock
state (indeed the whole state) after the call equal those before it. -/
theorem CheckSensitive_read_only (N : Native) (w : World) (text : List Byte)
    (maxSearchCount : Nat) (hm : 1 ≤ maxSearchCount) :
    (∃ r, (CheckSensitive N w text maxSearchCount).1 = Outcome.ret r) ∧
    (CheckSensitive N w text maxSearchCount).2.s.dfaNode = w.s.dfaNode ∧
    (CheckSensitive N w text maxSearchCount).2.s.rwMutex = w.s.rwMutex ∧
    (CheckSensitive N w text maxSearchCount).2 = w := by
  refine ⟨⟨_, scan_of_pos N w.s.dfaNode text maxSearchCount hm⟩, rfl, rfl, rfl⟩

/-- Claim C8 at the engine `World.busy`, the text `"aaaaa"` and count `20`. -/
theorem CheckSensitive_read_only_witness :
    (1 ≤ 20) ∧
    (∃ r, (CheckSensitive Native.sample World.busy aaaaa 20).1 = Outcome.ret r) ∧
    (CheckSensitive Native.sample World.busy aaaaa 20).2.s.dfaNode = 1 ∧
    (CheckSensitive Native.sample World.busy aaaaa 20).2.s.rwMutex = ⟨true, 0⟩ ∧
    (CheckSensitive Native.sample World.busy aaaaa 20).2 = World.busy :=
  ⟨by decide, CheckSensitive_read_only Native.sample World.busy aaaaa 20 (by decide)⟩

/-- Claim C9: every `UpdateCSearch` call that acquires the rebuild lock leaves
it free on return, whatever the outcome (success, build failure, or panic), so
the `TryLock` of a following `UpdateCSearch` succeeds and that call runs the
build instead of taking the already-in-progress exit. -/
theorem UpdateCSearch_releases_lock (N : Native) (w : World)
    (allSensitiveWords : List (List Byte)) (hacq : w.s.rwMutex.TryLock.1 = true)
    (N2 : Native) (words2 : List (List Byte)) :
    (UpdateCSearch N w allSensitiveWords).2.s.rwMutex.free = true ∧
    (UpdateCSearch N w allSensitiveWords).2.s.rwMutex.TryLock.1 = true ∧
    UpdateCSearch N2 (UpdateCSearch N w allSensitiveWords).2 words2 =
      ((UpdateCSearch.locked N2
          { (UpdateCSearch N w allSensitiveWords).2 with
            s := { (UpdateCSearch N w allSensitiveWords).2.s with
                   rwMutex := { (UpdateCSearch N w allSensitiveWords).2.s.rwMutex with
                                writer := true } } } words2).1,
       (UpdateCSearch.locked N2
          { (UpdateCSearch N w allSensitiveWords).2 with
            s := { (UpdateCSearch N w allSensitiveWords).2.s with
                   rwMutex := { (UpdateCSearch N w allSensitiveWords).2.s.rwMutex with
                                writer := true } } } words2).2.unlock) := by
  have hfree := RWMutex.free_of_TryLock _ hacq
  have hm := UpdateCSearch_rwMutex_of_free N w allSensitiveWords hfree
  have hfree2 : (UpdateCSearch N w allSensitiveWords).2.s.rwMutex.free = true := by
    rw [hm]; exact hfree
  refine ⟨hfree2, ?_, UpdateCSearch_of_free N2 _ words2 hfree2⟩
  rw [RWMutex.TryLock_of_free _ hfree2]

/-- Claim C9 at the engine `World.idle`: after a failed and after a successful
update the lock is free, and an update issued after the failed one installs
its automaton. -/
theorem UpdateCSearch_releases_lock_witness :
    World.idle.s.rwMutex.TryLock.1 = true ∧
    (UpdateCSearch Native.failing World.idle [[97]]).2.s.rwMutex.free = true ∧
    (UpdateCSearch Native.sample World.idle [[97]]).2.s.rwMutex.free = true ∧
    (UpdateCSearch Native.sample (UpdateCSearch Native.failing World.idle [[97]]).2 [[97]]).2.s.dfaNode
      = 2 :=
  ⟨rfl,
   (UpdateCSearch_releases_lock Native.failing World.idle [[97]] rfl Native.sample [[97]]).1,
   (UpdateCSearch_releases_lock Native.sample World.idle [[97]] rfl Native.sample [[97]]).1,
   rfl⟩

/-- Claim C10: for every `maxSearchCount ≥ 1` and whatever the native search
writes, `CheckSensitive` returns the buffer of `maxSearchCount` cells
(initialised to `-1`) as left by the native call with the cells equal to `-1`
removed, in buffer order; its length is at most `maxSearchCount`, it contains
no `-1`, and when the buffer is `k` non-negative indices followed by `-1`
cells, the result is exactly those `k` indices. -/
theorem CheckSensitive_result (N : Native) (w : World) (text : List Byte)
    (maxSearchCount : Nat) (hm : 1 ≤ maxSearchCount) :
    ((CIntArray.make maxSearchCount).fill (-1)).val = List.replicate maxSearchCount (-1) ∧
    ∃ r, (CheckSensitive N w text maxSearchCount).1 = Outcome.ret r ∧
      r = (N.checkSensitiveWords w.s.dfaNode text ((CIntArray.make maxSearchCount).fill (-1))
            maxSearchCount).val.filter (fun index => index != -1) ∧
      r.length ≤ maxSearchCount ∧
      (-1 : Int) ∉ r ∧
      ∀ indices : List Int, (∀ x ∈ indices, 0 ≤ x) →
        (N.checkSensitiveWords w.s.dfaNode text ((CIntArray.make maxSearchCount).fill (-1))
            maxSearchCount).val
          = indices ++ List.replicate (maxSearchCount - indices.length) (-1) →
        r = indices := by
  refine ⟨CIntArray.fill_make_val _ _, _, scan_of_pos N w.s.dfaNode text maxSearchCount hm, ?_⟩
  generalize (N.checkSensitiveWords w.s.dfaNode text ((CIntArray.make maxSearchCount).fill (-1))
            maxSearchCount) = buf
  rw [collect_eq_filter]
  refine ⟨?_, ?_, ?_, ?_⟩
  · rfl
  · exact le_trans (List.length_filter_le _ _) (le_of_eq buf.property)
  · intro hmem
    simp at hmem
  · intro indices hnonneg hbuf
    rw [hbuf, List.filter_append]
    have h1 : List.filter (fun index => index != -1) indices = indices := by
      rw [List.filter_eq_self]
      intro x hx
      have := hnonneg x hx
      simp only [bne_iff_ne, ne_eq]
      omega
    have h2 : List.filter (fun index => index != -1)
        (List.replicate (maxSearchCount - indices.length) (-1 : Int)) = [] := by
      rw [List.filter_eq_nil_iff]
      intro x hx
      have := List.eq_of_mem_replicate hx
      simp [this]
    rw [h1, h2, List.append_nil]

/-- Claim C10 at the engine `World.idle`, the text `"aaaaa"` and count `3`. -/
theorem CheckSensitive_result_witness :
    (1 ≤ 3) ∧
    ((CIntArray.make 3).fill (-1)).val = List.replicate 3 (-1) ∧
    ∃ r, (CheckSensitive Native.sample World.idle aaaaa 3).1 = Outcome.ret r ∧
      r = (Native.sample.checkSensitiveWords World.idle.s.dfaNode aaaaa
            ((CIntArray.make 3).fill (-1)) 3).val.filter (fun index => index != -1) ∧
      r.length ≤ 3 ∧
      (-1 : Int) ∉ r ∧
      ∀ indices : List Int, (∀ x ∈ indices, 0 ≤ x) →
        (Native.sample.checkSensitiveWords World.idle.s.dfaNode aaaaa
            ((CIntArray.make 3).fill (-1)) 3).val
          = indices ++ List.replicate (3 - indices.length) (-1) →
        r = indices :=
  ⟨by decide, CheckSensitive_result Native.sample World.idle aaaaa 3 (by decide)⟩

end Sensitives
